import Mathlib

/-!
Shallow embedding of `src/server.py` (a FastMCP gateway exposing the Serper
search API as agent tools) and proofs of the specification claims.

Python values flowing through the handlers are JSON-like, so we model them
with an inductive `Json` type.  A Python `dict` is a `List (String × Json)`
in insertion order.  The `requests.post` call is modelled by an `upstream`
function from the request record to an `Outcome`; each tool handler returns
the result dictionary together with the list of HTTP requests it issued, so
that "zero outbound network calls" and "exactly one POST" are statable.
-/

inductive Json where
  | null : Json
  | bool : Bool → Json
  | num : Int → Json
  | str : String → Json
  | arr : List Json → Json
  | obj : List (String × Json) → Json

/-- A Python dict with string keys, in insertion order. -/
abbrev JObj := List (String × Json)

/-- `d.get(k)` — `None` (i.e. JSON null) when the key is absent. -/
def jget (d : JObj) (k : String) : Json :=
  match d.find? (fun p => p.fst == k) with
  | some p => p.snd
  | none => Json.null

/-- `d.get(k, dflt)`. -/
def jgetD (d : JObj) (k : String) (dflt : Json) : Json :=
  match d.find? (fun p => p.fst == k) with
  | some p => p.snd
  | none => dflt

/-- `k in d` for a Python dict. -/
def hasKey (d : JObj) (k : String) : Bool :=
  d.any (fun p => p.fst == k)

/-- Python `len` on a JSON value: defined on lists, strings and dicts,
a `TypeError` (modelled as `none`) otherwise. -/
def pyLen : Json → Option Int
  | Json.arr xs => some xs.length
  | Json.str s => some s.length
  | Json.obj kvs => some kvs.length
  | _ => none

/-- View a JSON value as a dict; `none` models the `AttributeError` raised
by `value.get(...)` when the parsed body is not a dict. -/
def asObj : Json → Option JObj
  | Json.obj kvs => some kvs
  | _ => none

/-- `if param: payload[k] = param` for an optional string parameter:
the key is added only when the value is a truthy (non-empty) string. -/
def optField (k : String) (v : Option String) : JObj :=
  match v with
  | some s => if s == "" then [] else [(k, Json.str s)]
  | none => []

/-- Python truthiness of `api_key : str | None`. -/
def keyTruthy : Option String → Bool
  | none => false
  | some s => !(s == "")

/-- One outbound `requests.post` call as built by the handlers. -/
structure HttpRequest where
  url : String
  xApiKey : String
  contentType : String
  body : JObj
  timeout : Int

/-- Outcome of `requests.post` + `raise_for_status()` + `.json()`:
either a parsed JSON body from a 2xx response, or one of the exception
classes the `except Exception` block catches (carrying `str(e)`). -/
inductive Outcome where
  | ok (body : Json) : Outcome
  | httpError (msg : String) : Outcome
  | transportError (msg : String) : Outcome
  | parseError (msg : String) : Outcome

/-- What a tool handler produces: its return value plus the outbound
requests it performed. -/
structure ToolCall where
  result : JObj
  requests : List HttpRequest

def missingKeyMsg : String := "Missing SERPER_API_KEY environment variable"

/-- Stand-in for `str(e)` of the `TypeError` raised by `len(...)` on a
value with no length (the exact dynamic message is irrelevant to the
claims; only the fact that the except-branch shape is returned matters). -/
def lenErrorMsg : String := "TypeError: object has no len"

/-- Stand-in for `str(e)` of the `AttributeError` raised by `.get` on a
non-dict parsed body. -/
def attrErrorMsg : String := "AttributeError: object has no attribute get"

/-- Payload built by `search_google` (src/server.py lines 44-56). -/
def googlePayload (q : String) (num : Int) (autocorrect : Bool) (page : Int)
    (location gl hl : Option String) : JObj :=
  [("q", Json.str q), ("num", Json.num num),
   ("autocorrect", Json.bool autocorrect), ("page", Json.num page)]
    ++ optField "location" location ++ optField "gl" gl ++ optField "hl" hl

/-- The request record `search_google` posts (src/server.py lines 58-66). -/
def googleReq (apiKey : String) (q : String) (num : Int) (autocorrect : Bool)
    (page : Int) (location gl hl : Option String) : HttpRequest :=
  { url := "https://google.serper.dev/search"
    xApiKey := apiKey
    contentType := "application/json"
    body := googlePayload q num autocorrect page location gl hl
    timeout := 30 }

/-- `search_google` (src/server.py lines 9-88).  Defaults in the source:
`num=10, location=None, gl=None, hl=None, autocorrect=True, page=1`. -/
def search_google (apiKey : Option String) (upstream : HttpRequest → Outcome)
    (q : String) (num : Int) (location gl hl : Option String)
    (autocorrect : Bool) (page : Int) : ToolCall :=
  if keyTruthy apiKey = false then
    { result := [("error", Json.str missingKeyMsg), ("results", Json.arr [])]
      requests := [] }
  else
    let req := googleReq (apiKey.getD "") q num autocorrect page location gl hl
    match upstream req with
    | Outcome.httpError m =>
        { result := [("error", Json.str m), ("results", Json.arr [])]
          requests := [req] }
    | Outcome.transportError m =>
        { result := [("error", Json.str m), ("results", Json.arr [])]
          requests := [req] }
    | Outcome.parseError m =>
        { result := [("error", Json.str m), ("results", Json.arr [])]
          requests := [req] }
    | Outcome.ok body =>
        match asObj body with
        | none =>
            { result := [("error", Json.str attrErrorMsg), ("results", Json.arr [])]
              requests := [req] }
        | some data =>
            match pyLen (jgetD data "organic" (Json.arr [])) with
            | none =>
                { result := [("error", Json.str lenErrorMsg), ("results", Json.arr [])]
                  requests := [req] }
            | some n =>
                { result :=
                    [("query", Json.str q),
                     ("organic_results", jgetD data "organic" (Json.arr [])),
                     ("knowledge_graph", jget data "knowledgeGraph"),
                     ("people_also_ask", jgetD data "peopleAlsoAsk" (Json.arr [])),
                     ("related_searches", jgetD data "relatedSearches" (Json.arr [])),
                     ("total_results", Json.num n)]
                  requests := [req] }

/-- Payload built by `search_images` (src/server.py lines 118-124). -/
def imagesPayload (q : String) (num : Int) (location gl hl : Option String) : JObj :=
  [("q", Json.str q), ("num", Json.num num)]
    ++ optField "location" location ++ optField "gl" gl ++ optField "hl" hl

/-- The request record `search_images` posts (src/server.py lines 126-134). -/
def imagesReq (apiKey : String) (q : String) (num : Int)
    (location gl hl : Option String) : HttpRequest :=
  { url := "https://google.serper.dev/images"
    xApiKey := apiKey
    contentType := "application/json"
    body := imagesPayload q num location gl hl
    timeout := 30 }

/-- `search_images` (src/server.py lines 91-147). -/
def search_images (apiKey : Option String) (upstream : HttpRequest → Outcome)
    (q : String) (num : Int) (location gl hl : Option String) : ToolCall :=
  if keyTruthy apiKey = false then
    { result := [("error", Json.str missingKeyMsg), ("images", Json.arr [])]
      requests := [] }
  else
    let req := imagesReq (apiKey.getD "") q num location gl hl
    match upstream req with
    | Outcome.httpError m =>
        { result := [("error", Json.str m), ("images", Json.arr [])]
          requests := [req] }
    | Outcome.transportError m =>
        { result := [("error", Json.str m), ("images", Json.arr [])]
          requests := [req] }
    | Outcome.parseError m =>
        { result := [("error", Json.str m), ("images", Json.arr [])]
          requests := [req] }
    | Outcome.ok body =>
        match asObj body with
        | none =>
            { result := [("error", Json.str attrErrorMsg), ("images", Json.arr [])]
              requests := [req] }
        | some data =>
            match pyLen (jgetD data "images" (Json.arr [])) with
            | none =>
                { result := [("error", Json.str lenErrorMsg), ("images", Json.arr [])]
                  requests := [req] }
            | some n =>
                { result :=
                    [("query", Json.str q),
                     ("images", jgetD data "images" (Json.arr [])),
                     ("count", Json.num n)]
                  requests := [req] }

/-- Payload built by `search_news` (src/server.py lines 179-187). -/
def newsPayload (q : String) (num : Int) (location gl hl tbs : Option String) : JObj :=
  [("q", Json.str q), ("num", Json.num num)]
    ++ optField "location" location ++ optField "gl" gl ++ optField "hl" hl
    ++ optField "tbs" tbs

/-- The request record `search_news` posts (src/server.py lines 189-197). -/
def newsReq (apiKey : String) (q : String) (num : Int)
    (location gl hl tbs : Option String) : HttpRequest :=
  { url := "https://google.serper.dev/news"
    xApiKey := apiKey
    contentType := "application/json"
    body := newsPayload q num location gl hl tbs
    timeout := 30 }

/-- `search_news` (src/server.py lines 150-210). -/
def search_news (apiKey : Option String) (upstream : HttpRequest → Outcome)
    (q : String) (num : Int) (location gl hl tbs : Option String) : ToolCall :=
  if keyTruthy apiKey = false then
    { result := [("error", Json.str missingKeyMsg), ("news", Json.arr [])]
      requests := [] }
  else
    let req := newsReq (apiKey.getD "") q num location gl hl tbs
    match upstream req with
    | Outcome.httpError m =>
        { result := [("error", Json.str m), ("news", Json.arr [])]
          requests := [req] }
    | Outcome.transportError m =>
        { result := [("error", Json.str m), ("news", Json.arr [])]
          requests := [req] }
    | Outcome.parseError m =>
        { result := [("error", Json.str m), ("news", Json.arr [])]
          requests := [req] }
    | Outcome.ok body =>
        match asObj body with
        | none =>
            { result := [("error", Json.str attrErrorMsg), ("news", Json.arr [])]
              requests := [req] }
        | some data =>
            match pyLen (jgetD data "news" (Json.arr [])) with
            | none =>
                { result := [("error", Json.str lenErrorMsg), ("news", Json.arr [])]
                  requests := [req] }
            | some n =>
                { result :=
                    [("query", Json.str q),
                     ("news", jgetD data "news" (Json.arr [])),
                     ("count", Json.num n)]
                  requests := [req] }

/-- Payload built by `search_places` (src/server.py lines 238-244). -/
def placesPayload (q : String) (location gl hl : Option String) : JObj :=
  [("q", Json.str q)]
    ++ optField "location" location ++ optField "gl" gl ++ optField "hl" hl

/-- The request record `search_places` posts (src/server.py lines 246-254). -/
def placesReq (apiKey : String) (q : String)
    (location gl hl : Option String) : HttpRequest :=
  { url := "https://google.serper.dev/places"
    xApiKey := apiKey
    contentType := "application/json"
    body := placesPayload q location gl hl
    timeout := 30 }

/-- `search_places` (src/server.py lines 213-267). -/
def search_places (apiKey : Option String) (upstream : HttpRequest → Outcome)
    (q : String) (location gl hl : Option String) : ToolCall :=
  if keyTruthy apiKey = false then
    { result := [("error", Json.str missingKeyMsg), ("places", Json.arr [])]
      requests := [] }
  else
    let req := placesReq (apiKey.getD "") q location gl hl
    match upstream req with
    | Outcome.httpError m =>
        { result := [("error", Json.str m), ("places", Json.arr [])]
          requests := [req] }
    | Outcome.transportError m =>
        { result := [("error", Json.str m), ("places", Json.arr [])]
          requests := [req] }
    | Outcome.parseError m =>
        { result := [("error", Json.str m), ("places", Json.arr [])]
          requests := [req] }
    | Outcome.ok body =>
        match asObj body with
        | none =>
            { result := [("error", Json.str attrErrorMsg), ("places", Json.arr [])]
              requests := [req] }
        | some data =>
            match pyLen (jgetD data "places" (Json.arr [])) with
            | none =>
                { result := [("error", Json.str lenErrorMsg), ("places", Json.arr [])]
                  requests := [req] }
            | some n =>
                { result :=
                    [("query", Json.str q),
                     ("places", jgetD data "places" (Json.arr [])),
                     ("count", Json.num n)]
                  requests := [req] }

/-- Payload built by `search_shopping` (src/server.py lines 297-303). -/
def shoppingPayload (q : String) (num : Int) (location gl hl : Option String) : JObj :=
  [("q", Json.str q), ("num", Json.num num)]
    ++ optField "location" location ++ optField "gl" gl ++ optField "hl" hl

/-- The request record `search_shopping` posts (src/server.py lines 305-313). -/
def shoppingReq (apiKey : String) (q : String) (num : Int)
    (location gl hl : Option String) : HttpRequest :=
  { url := "https://google.serper.dev/shopping"
    xApiKey := apiKey
    contentType := "application/json"
    body := shoppingPayload q num location gl hl
    timeout := 30 }

/-- `search_shopping` (src/server.py lines 270-326). -/
def search_shopping (apiKey : Option String) (upstream : HttpRequest → Outcome)
    (q : String) (num : Int) (location gl hl : Option String) : ToolCall :=
  if keyTruthy apiKey = false then
    { result := [("error", Json.str missingKeyMsg), ("shopping", Json.arr [])]
      requests := [] }
  else
    let req := shoppingReq (apiKey.getD "") q num location gl hl
    match upstream req with
    | Outcome.httpError m =>
        { result := [("error", Json.str m), ("shopping", Json.arr [])]
          requests := [req] }
    | Outcome.transportError m =>
        { result := [("error", Json.str m), ("shopping", Json.arr [])]
          requests := [req] }
    | Outcome.parseError m =>
        { result := [("error", Json.str m), ("shopping", Json.arr [])]
          requests := [req] }
    | Outcome.ok body =>
        match asObj body with
        | none =>
            { result := [("error", Json.str attrErrorMsg), ("shopping", Json.arr [])]
              requests := [req] }
        | some data =>
            match pyLen (jgetD data "shopping" (Json.arr [])) with
            | none =>
                { result := [("error", Json.str lenErrorMsg), ("shopping", Json.arr [])]
                  requests := [req] }
            | some n =>
                { result :=
                    [("query", Json.str q),
                     ("shopping", jgetD data "shopping" (Json.arr [])),
                     ("count", Json.num n)]
                  requests := [req] }

/-- Payload built by `search_videos` (src/server.py lines 356-362). -/
def videosPayload (q : String) (num : Int) (location gl hl : Option String) : JObj :=
  [("q", Json.str q), ("num", Json.num num)]
    ++ optField "location" location ++ optField "gl" gl ++ optField "hl" hl

/-- The request record `search_videos` posts (src/server.py lines 364-372). -/
def videosReq (apiKey : String) (q : String) (num : Int)
    (location gl hl : Option String) : HttpRequest :=
  { url := "https://google.serper.dev/videos"
    xApiKey := apiKey
    contentType := "application/json"
    body := videosPayload q num location gl hl
    timeout := 30 }

/-- `search_videos` (src/server.py lines 329-385). -/
def search_videos (apiKey : Option String) (upstream : HttpRequest → Outcome)
    (q : String) (num : Int) (location gl hl : Option String) : ToolCall :=
  if keyTruthy apiKey = false then
    { result := [("error", Json.str missingKeyMsg), ("videos", Json.arr [])]
      requests := [] }
  else
    let req := videosReq (apiKey.getD "") q num location gl hl
    match upstream req with
    | Outcome.httpError m =>
        { result := [("error", Json.str m), ("videos", Json.arr [])]
          requests := [req] }
    | Outcome.transportError m =>
        { result := [("error", Json.str m), ("videos", Json.arr [])]
          requests := [req] }
    | Outcome.parseError m =>
        { result := [("error", Json.str m), ("videos", Json.arr [])]
          requests := [req] }
    | Outcome.ok body =>
        match asObj body with
        | none =>
            { result := [("error", Json.str attrErrorMsg), ("videos", Json.arr [])]
              requests := [req] }
        | some data =>
            match pyLen (jgetD data "videos" (Json.arr [])) with
            | none =>
                { result := [("error", Json.str lenErrorMsg), ("videos", Json.arr [])]
                  requests := [req] }
            | some n =>
                { result :=
                    [("query", Json.str q),
                     ("videos", jgetD data "videos" (Json.arr [])),
                     ("count", Json.num n)]
                  requests := [req] }

/-- Names of the functions registered with the `@app.tool()` decorator in
src/server.py, in source order: six search verticals and one static
reference tool. -/
def registeredTools : List String :=
  ["search_google", "search_images", "search_news",
   "search_places", "search_shopping", "search_videos", "get_search_info"]

/-- Static dictionary returned by `get_search_info`
(src/server.py lines 388-430); no upstream call is made. -/
def get_search_info : JObj :=
  [("search_types", Json.arr
      [Json.obj [("name", Json.str "search_google"),
        ("description", Json.str "General web search - Returns organic results, knowledge graph, people also ask")],
       Json.obj [("name", Json.str "search_images"),
        ("description", Json.str "Image search - Returns images with URLs, dimensions, sources")],
       Json.obj [("name", Json.str "search_news"),
        ("description", Json.str "News search - Returns news articles with dates, sources, time filters")],
       Json.obj [("name", Json.str "search_places"),
        ("description", Json.str "Local businesses/maps - Returns places with ratings, addresses, GPS")],
       Json.obj [("name", Json.str "search_shopping"),
        ("description", Json.str "Product search - Returns products with prices, ratings, sellers")],
       Json.obj [("name", Json.str "search_videos"),
        ("description", Json.str "Video search - Returns videos with titles, channels, durations")]]),
   ("features", Json.obj
      [("geotargeting", Json.str "Use \x27location\x27 or \x27gl\x27 parameters for localized results"),
       ("languages", Json.str "Use \x27hl\x27 parameter for different languages (e.g., \x27en\x27, \x27es\x27, \x27fr\x27)"),
       ("time_filters", Json.str "Use \x27tbs\x27 parameter for news (e.g., \x27qdr:d\x27 for past day)"),
       ("pagination", Json.str "Use \x27num\x27 (up to 100) and \x27page\x27 parameters")]),
   ("cost", Json.str "$0.002 per search"),
   ("note", Json.str "All searches return structured JSON data")]

/-- The `name` entries of the `search_types` list in `get_search_info`. -/
def searchTypeNames : List String :=
  match jget get_search_info "search_types" with
  | Json.arr xs =>
      xs.map (fun j =>
        match j with
        | Json.obj kvs =>
            match jget kvs "name" with
            | Json.str s => s
            | _ => ""
        | _ => "")
  | _ => []

/-- A non-`ok` upstream outcome, i.e. one of the exceptions the handlers
catch: non-2xx status, transport fault, or JSON parse failure. -/
def Outcome.isFailure : Outcome → Bool
  | Outcome.ok _ => false
  | _ => true

theorem keyTruthy_some_of_ne {k : String} (hk : k ≠ "") :
    keyTruthy (some k) = true := by
  simp [keyTruthy, hk]

theorem optField_some_of_ne {s : String} (hs : s ≠ "") (k : String) :
    optField k (some s) = [(k, Json.str s)] := by
  simp [optField, hs]

theorem search_google_requests_eq {k : String} (hk : k ≠ "")
    (u : HttpRequest → Outcome) (q : String) (num : Int)
    (location gl hl : Option String) (ac : Bool) (page : Int) :
    (search_google (some k) u q num location gl hl ac page).requests
      = [googleReq k q num ac page location gl hl] := by
  unfold search_google
  rw [keyTruthy_some_of_ne hk]
  simp only [Bool.true_eq_false, if_false, Option.getD_some]
  split
  all_goals try rfl
  split
  all_goals try rfl
  split
  all_goals rfl

theorem search_images_requests_eq {k : String} (hk : k ≠ "")
    (u : HttpRequest → Outcome) (q : String) (num : Int)
    (location gl hl : Option String) :
    (search_images (some k) u q num location gl hl).requests
      = [imagesReq k q num location gl hl] := by
  unfold search_images
  rw [keyTruthy_some_of_ne hk]
  simp only [Bool.true_eq_false, if_false, Option.getD_some]
  split
  all_goals try rfl
  split
  all_goals try rfl
  split
  all_goals rfl

theorem search_news_requests_eq {k : String} (hk : k ≠ "")
    (u : HttpRequest → Outcome) (q : String) (num : Int)
    (location gl hl tbs : Option String) :
    (search_news (some k) u q num location gl hl tbs).requests
      = [newsReq k q num location gl hl tbs] := by
  unfold search_news
  rw [keyTruthy_some_of_ne hk]
  simp only [Bool.true_eq_false, if_false, Option.getD_some]
  split
  all_goals try rfl
  split
  all_goals try rfl
  split
  all_goals rfl

theorem search_places_requests_eq {k : String} (hk : k ≠ "")
    (u : HttpRequest → Outcome) (q : String)
    (location gl hl : Option String) :
    (search_places (some k) u q location gl hl).requests
      = [placesReq k q location gl hl] := by
  unfold search_places
  rw [keyTruthy_some_of_ne hk]
  simp only [Bool.true_eq_false, if_false, Option.getD_some]
  split
  all_goals try rfl
  split
  all_goals try rfl
  split
  all_goals rfl

theorem search_shopping_requests_eq {k : String} (hk : k ≠ "")
    (u : HttpRequest → Outcome) (q : String) (num : Int)
    (location gl hl : Option String) :
    (search_shopping (some k) u q num location gl hl).requests
      = [shoppingReq k q num location gl hl] := by
  unfold search_shopping
  rw [keyTruthy_some_of_ne hk]
  simp only [Bool.true_eq_false, if_false, Option.getD_some]
  split
  all_goals try rfl
  split
  all_goals try rfl
  split
  all_goals rfl

theorem search_videos_requests_eq {k : String} (hk : k ≠ "")
    (u : HttpRequest → Outcome) (q : String) (num : Int)
    (location gl hl : Option String) :
    (search_videos (some k) u q num location gl hl).requests
      = [videosReq k q num location gl hl] := by
  unfold search_videos
  rw [keyTruthy_some_of_ne hk]
  simp only [Bool.true_eq_false, if_false, Option.getD_some]
  split
  all_goals try rfl
  split
  all_goals try rfl
  split
  all_goals rfl

/-- The error message carried by a failing outcome. -/
def Outcome.errMsg : Outcome → String
  | Outcome.ok _ => ""
  | Outcome.httpError m => m
  | Outcome.transportError m => m
  | Outcome.parseError m => m

theorem search_google_ok_result {k : String} (hk : k ≠ "")
    (q : String) (num : Int) (location gl hl : Option String) (ac : Bool)
    (page : Int) (data : JObj) (n : Int)
    (hn : pyLen (jgetD data "organic" (Json.arr [])) = some n) :
    (search_google (some k) (fun _ => Outcome.ok (Json.obj data))
        q num location gl hl ac page).result
      = [("query", Json.str q),
         ("organic_results", jgetD data "organic" (Json.arr [])),
         ("knowledge_graph", jget data "knowledgeGraph"),
         ("people_also_ask", jgetD data "peopleAlsoAsk" (Json.arr [])),
         ("related_searches", jgetD data "relatedSearches" (Json.arr [])),
         ("total_results", Json.num n)] := by
  unfold search_google
  rw [keyTruthy_some_of_ne hk]
  simp only [Bool.true_eq_false, if_false, Option.getD_some, asObj]
  rw [hn]

/-- C1: the web-search reshape is a pure key-rename/pass-through.  The
concrete stub scenario (`q="test"`, `num=3`, upstream body
`{"organic": [{"title": "A"}], "knowledgeGraph": null}`) yields exactly the
documented result dictionary, and in general whenever the upstream body
maps `"organic"` to a list, `organic_results` in the tool result is that
very list, unchanged. -/
theorem google_reshape_passthrough :
    ((search_google (some "key")
        (fun _ => Outcome.ok (Json.obj
          [("organic", Json.arr [Json.obj [("title", Json.str "A")]]),
           ("knowledgeGraph", Json.null)]))
        "test" 3 none none none true 1).result
      = [("query", Json.str "test"),
         ("organic_results", Json.arr [Json.obj [("title", Json.str "A")]]),
         ("knowledge_graph", Json.null),
         ("people_also_ask", Json.arr []),
         ("related_searches", Json.arr []),
         ("total_results", Json.num 1)])
    ∧ ∀ (k q : String) (num : Int) (data : JObj) (l : List Json),
        k ≠ "" →
        jgetD data "organic" (Json.arr []) = Json.arr l →
        jget (search_google (some k) (fun _ => Outcome.ok (Json.obj data))
            q num none none none true 1).result "organic_results" = Json.arr l := by
  refine ⟨rfl, ?_⟩
  intro k q num data l hk hd
  have hn : pyLen (jgetD data "organic" (Json.arr [])) = some (l.length : Int) := by
    rw [hd]; rfl
  rw [search_google_ok_result hk q num none none none true 1 data l.length hn, hd]
  rfl

theorem google_reshape_passthrough_witness :
    jget (search_google (some "k")
        (fun _ => Outcome.ok (Json.obj [("organic", Json.arr [Json.num 7])]))
        "x" 5 none none none true 1).result "organic_results"
      = Json.arr [Json.num 7] :=
  google_reshape_passthrough.2 "k" "x" 5 [("organic", Json.arr [Json.num 7])]
    [Json.num 7] (by decide) rfl

/-- C2: with the credential unset (`SERPER_API_KEY` absent, i.e. `None`),
every search vertical returns a result carrying an `error` key and issues
zero outbound requests, whatever the upstream function would do. -/
theorem missing_credential_error_no_network (u : HttpRequest → Outcome)
    (q : String) (num : Int) (location gl hl tbs : Option String)
    (ac : Bool) (page : Int) :
    (hasKey (search_google none u q num location gl hl ac page).result "error" = true
      ∧ (search_google none u q num location gl hl ac page).requests = [])
    ∧ (hasKey (search_images none u q num location gl hl).result "error" = true
      ∧ (search_images none u q num location gl hl).requests = [])
    ∧ (hasKey (search_news none u q num location gl hl tbs).result "error" = true
      ∧ (search_news none u q num location gl hl tbs).requests = [])
    ∧ (hasKey (search_places none u q location gl hl).result "error" = true
      ∧ (search_places none u q location gl hl).requests = [])
    ∧ (hasKey (search_shopping none u q num location gl hl).result "error" = true
      ∧ (search_shopping none u q num location gl hl).requests = [])
    ∧ (hasKey (search_videos none u q num location gl hl).result "error" = true
      ∧ (search_videos none u q num location gl hl).requests = []) :=
  ⟨⟨rfl, rfl⟩, ⟨rfl, rfl⟩, ⟨rfl, rfl⟩, ⟨rfl, rfl⟩, ⟨rfl, rfl⟩, ⟨rfl, rfl⟩⟩

/-- C3: every failing upstream outcome — non-2xx status, transport fault,
or JSON parse failure — is converted by every vertical into a plain result
dictionary whose `error` key carries the exception message (alongside the
vertical-specific empty list); the handlers are total functions, so no
exception crosses the tool boundary. -/
theorem upstream_failure_becomes_error_result (k : String) (hk : k ≠ "")
    (o : Outcome) (ho : o.isFailure = true) (q : String) (num : Int)
    (location gl hl tbs : Option String) (ac : Bool) (page : Int) :
    ((search_google (some k) (fun _ => o) q num location gl hl ac page).result
      = [("error", Json.str o.errMsg), ("results", Json.arr [])])
    ∧ ((search_images (some k) (fun _ => o) q num location gl hl).result
      = [("error", Json.str o.errMsg), ("images", Json.arr [])])
    ∧ ((search_news (some k) (fun _ => o) q num location gl hl tbs).result
      = [("error", Json.str o.errMsg), ("news", Json.arr [])])
    ∧ ((search_places (some k) (fun _ => o) q location gl hl).result
      = [("error", Json.str o.errMsg), ("places", Json.arr [])])
    ∧ ((search_shopping (some k) (fun _ => o) q num location gl hl).result
      = [("error", Json.str o.errMsg), ("shopping", Json.arr [])])
    ∧ ((search_videos (some k) (fun _ => o) q num location gl hl).result
      = [("error", Json.str o.errMsg), ("videos", Json.arr [])]) := by
  have hkt := keyTruthy_some_of_ne hk
  cases o <;>
    simp_all [search_google, search_images, search_news, search_places,
      search_shopping, search_videos, Outcome.isFailure, Outcome.errMsg]

theorem upstream_failure_becomes_error_result_witness :
    (search_images (some "k") (fun _ => Outcome.transportError "boom")
        "cat" 10 none none none).result
      = [("error", Json.str "boom"), ("images", Json.arr [])] :=
  (upstream_failure_becomes_error_result "k" (by decide)
    (Outcome.transportError "boom") rfl "cat" 10 none none none none true 1).2.1

/-- C4 counterexample: with only `q` supplied, `search_images` posts the
body `{"q": "cat", "num": 10}` — there is no `autocorrect` key, although
the claim requires the images default `autocorrect=true` on the wire. -/
theorem images_defaults_lack_autocorrect :
    ((search_images (some "k") (fun _ => Outcome.ok (Json.obj []))
        "cat" 10 none none none).requests.map (fun r => r.body)
      = [[("q", Json.str "cat"), ("num", Json.num 10)]])
    ∧ ((search_images (some "k") (fun _ => Outcome.ok (Json.obj []))
        "cat" 10 none none none).requests.map (fun r => hasKey r.body "autocorrect")
      = [false]) := ⟨rfl, rfl⟩

/-- C4 (amended): called with only the required `q` (all other parameters
at their source defaults), each vertical posts exactly its hard defaults
and nothing else: web search sends q, num=10, autocorrect=true, page=1;
images, news, shopping and videos send q, num=10; places sends only q.
No None-valued or absent-optional key appears. -/
theorem defaults_only_payloads (k q : String) (hk : k ≠ "")
    (u : HttpRequest → Outcome) :
    ((search_google (some k) u q 10 none none none true 1).requests.map (fun r => r.body)
      = [[("q", Json.str q), ("num", Json.num 10),
          ("autocorrect", Json.bool true), ("page", Json.num 1)]])
    ∧ ((search_images (some k) u q 10 none none none).requests.map (fun r => r.body)
      = [[("q", Json.str q), ("num", Json.num 10)]])
    ∧ ((search_news (some k) u q 10 none none none none).requests.map (fun r => r.body)
      = [[("q", Json.str q), ("num", Json.num 10)]])
    ∧ ((search_places (some k) u q none none none).requests.map (fun r => r.body)
      = [[("q", Json.str q)]])
    ∧ ((search_shopping (some k) u q 10 none none none).requests.map (fun r => r.body)
      = [[("q", Json.str q), ("num", Json.num 10)]])
    ∧ ((search_videos (some k) u q 10 none none none).requests.map (fun r => r.body)
      = [[("q", Json.str q), ("num", Json.num 10)]]) := by
  refine ⟨?_, ?_, ?_, ?_, ?_, ?_⟩
  · rw [search_google_requests_eq hk]; rfl
  · rw [search_images_requests_eq hk]; rfl
  · rw [search_news_requests_eq hk]; rfl
  · rw [search_places_requests_eq hk]; rfl
  · rw [search_shopping_requests_eq hk]; rfl
  · rw [search_videos_requests_eq hk]; rfl

theorem defaults_only_payloads_witness :
    ((search_google (some "k") (fun _ => Outcome.ok Json.null)
        "x" 10 none none none true 1).requests.map (fun r => r.body)
      = [[("q", Json.str "x"), ("num", Json.num 10),
          ("autocorrect", Json.bool true), ("page", Json.num 1)]]) :=
  (defaults_only_payloads "k" "x" (by decide) (fun _ => Outcome.ok Json.null)).1

/-- C5 counterexample: supplying the optional `gl` as the empty string does
not put the supplied value under `"gl"` in the outbound payload — the
Python truthiness test drops the key entirely. -/
theorem empty_optional_value_dropped :
    ((search_google (some "k") (fun _ => Outcome.ok (Json.obj []))
        "x" 10 none (some "") none true 1).requests.map
          (fun r => hasKey r.body "gl"))
      = [false] := rfl

/-- C5 (amended): for every vertical and each of its optional string
fields (location, gl, hl, and tbs for news): a supplied non-empty value
appears verbatim under that key in the outbound payload, and an omitted or
empty/falsy value leaves the key entirely absent (never null/empty). -/
theorem optional_fields_verbatim_or_absent (q s : String) (num : Int)
    (hs : s ≠ "") :
    (googlePayload q num true 1 (some s) none none
      = [("q", Json.str q), ("num", Json.num num), ("autocorrect", Json.bool true),
         ("page", Json.num 1), ("location", Json.str s)])
    ∧ (googlePayload q num true 1 none (some s) none
      = [("q", Json.str q), ("num", Json.num num), ("autocorrect", Json.bool true),
         ("page", Json.num 1), ("gl", Json.str s)])
    ∧ (googlePayload q num true 1 none none (some s)
      = [("q", Json.str q), ("num", Json.num num), ("autocorrect", Json.bool true),
         ("page", Json.num 1), ("hl", Json.str s)])
    ∧ (googlePayload q num true 1 (some "") (some "") (some "")
      = [("q", Json.str q), ("num", Json.num num), ("autocorrect", Json.bool true),
         ("page", Json.num 1)])
    ∧ (googlePayload q num true 1 none none none
      = [("q", Json.str q), ("num", Json.num num), ("autocorrect", Json.bool true),
         ("page", Json.num 1)])
    ∧ (imagesPayload q num (some s) none none
      = [("q", Json.str q), ("num", Json.num num), ("location", Json.str s)])
    ∧ (imagesPayload q num none (some s) none
      = [("q", Json.str q), ("num", Json.num num), ("gl", Json.str s)])
    ∧ (imagesPayload q num none none (some s)
      = [("q", Json.str q), ("num", Json.num num), ("hl", Json.str s)])
    ∧ (imagesPayload q num (some "") (some "") (some "")
      = [("q", Json.str q), ("num", Json.num num)])
    ∧ (imagesPayload q num none none none
      = [("q", Json.str q), ("num", Json.num num)])
    ∧ (newsPayload q num (some s) none none none
      = [("q", Json.str q), ("num", Json.num num), ("location", Json.str s)])
    ∧ (newsPayload q num none (some s) none none
      = [("q", Json.str q), ("num", Json.num num), ("gl", Json.str s)])
    ∧ (newsPayload q num none none (some s) none
      = [("q", Json.str q), ("num", Json.num num), ("hl", Json.str s)])
    ∧ (newsPayload q num none none none (some s)
      = [("q", Json.str q), ("num", Json.num num), ("tbs", Json.str s)])
    ∧ (newsPayload q num (some "") (some "") (some "") (some "")
      = [("q", Json.str q), ("num", Json.num num)])
    ∧ (newsPayload q num none none none none
      = [("q", Json.str q), ("num", Json.num num)])
    ∧ (placesPayload q (some s) none none
      = [("q", Json.str q), ("location", Json.str s)])
    ∧ (placesPayload q none (some s) none
      = [("q", Json.str q), ("gl", Json.str s)])
    ∧ (placesPayload q none none (some s)
      = [("q", Json.str q), ("hl", Json.str s)])
    ∧ (placesPayload q (some "") (some "") (some "")
      = [("q", Json.str q)])
    ∧ (placesPayload q none none none
      = [("q", Json.str q)])
    ∧ (shoppingPayload q num (some s) none none
      = [("q", Json.str q), ("num", Json.num num), ("location", Json.str s)])
    ∧ (shoppingPayload q num none (some s) none
      = [("q", Json.str q), ("num", Json.num num), ("gl", Json.str s)])
    ∧ (shoppingPayload q num none none (some s)
      = [("q", Json.str q), ("num", Json.num num), ("hl", Json.str s)])
    ∧ (shoppingPayload q num (some "") (some "") (some "")
      = [("q", Json.str q), ("num", Json.num num)])
    ∧ (shoppingPayload q num none none none
      = [("q", Json.str q), ("num", Json.num num)])
    ∧ (videosPayload q num (some s) none none
      = [("q", Json.str q), ("num", Json.num num), ("location", Json.str s)])
    ∧ (videosPayload q num none (some s) none
      = [("q", Json.str q), ("num", Json.num num), ("gl", Json.str s)])
    ∧ (videosPayload q num none none (some s)
      = [("q", Json.str q), ("num", Json.num num), ("hl", Json.str s)])
    ∧ (videosPayload q num (some "") (some "") (some "")
      = [("q", Json.str q), ("num", Json.num num)])
    ∧ (videosPayload q num none none none
      = [("q", Json.str q), ("num", Json.num num)]) := by
  simp [googlePayload, imagesPayload, newsPayload, placesPayload,
    shoppingPayload, videosPayload, optField, hs]

theorem optional_fields_verbatim_or_absent_witness :
    placesPayload "x" (some "Paris") none none
      = [("q", Json.str "x"), ("location", Json.str "Paris")] :=
  (optional_fields_verbatim_or_absent "x" "Paris" 10 (by decide)).2.2.2.2.2.2.2.2.2.2.2.2.2.2.2.2.1

/-- C6: for the image-search tool, a transport-level upstream failure
yields exactly `{"error": <message>, "images": []}`: the message plus the
vertical-specific empty list, with no populated result-list key. -/
theorem images_transport_failure_shape (k q m : String) (hk : k ≠ "")
    (num : Int) (location gl hl : Option String) :
    (search_images (some k) (fun _ => Outcome.transportError m)
        q num location gl hl).result
      = [("error", Json.str m), ("images", Json.arr [])] := by
  have hkt := keyTruthy_some_of_ne hk
  simp [search_images, hkt]

theorem images_transport_failure_shape_witness :
    (search_images (some "k") (fun _ => Outcome.transportError "network down")
        "cat" 10 none none none).result
      = [("error", Json.str "network down"), ("images", Json.arr [])] :=
  images_transport_failure_shape "k" "cat" "network down" (by decide) 10 none none none

/-- C7 counterexample: the registered tool catalog has seven entries — six
search verticals plus `get_search_info` — so it contains neither ten
vertical tools nor the five claimed reference tools; in particular none of
the claimed reference tools other than `get_search_info` exists. -/
theorem tool_catalog_counterexample :
    registeredTools.length = 7
    ∧ registeredTools.contains "get_supported_locations" = false
    ∧ registeredTools.contains "get_supported_languages" = false
    ∧ registeredTools.contains "get_time_filters" = false
    ∧ registeredTools.contains "get_api_info" = false :=
  ⟨rfl, rfl, rfl, rfl, rfl⟩

/-- C7 (amended): the gateway declares a fixed catalog of six search
verticals (web, images, news, places, shopping, videos), each exposed as a
callable tool, plus the single read-only reference tool `get_search_info`,
whose static `search_types` entry lists exactly those six vertical tools. -/
theorem tool_catalog_amended :
    registeredTools = ["search_google", "search_images", "search_news",
      "search_places", "search_shopping", "search_videos", "get_search_info"]
    ∧ searchTypeNames = registeredTools.take 6 := ⟨rfl, rfl⟩

/-- C8: with the credential present, every vertical invocation issues
exactly one HTTP POST (no retry) to that vertical endpoint, carrying the
credential in the `X-API-KEY` header, content type `application/json`, the
normalized payload as JSON body, and the fixed timeout 30 — whatever the
upstream outcome is. -/
theorem single_post_with_credential (k q : String) (hk : k ≠ "")
    (u : HttpRequest → Outcome) (num : Int)
    (location gl hl tbs : Option String) (ac : Bool) (page : Int) :
    ((search_google (some k) u q num location gl hl ac page).requests
      = [{ url := "https://google.serper.dev/search", xApiKey := k,
           contentType := "application/json",
           body := googlePayload q num ac page location gl hl, timeout := 30 }])
    ∧ ((search_images (some k) u q num location gl hl).requests
      = [{ url := "https://google.serper.dev/images", xApiKey := k,
           contentType := "application/json",
           body := imagesPayload q num location gl hl, timeout := 30 }])
    ∧ ((search_news (some k) u q num location gl hl tbs).requests
      = [{ url := "https://google.serper.dev/news", xApiKey := k,
           contentType := "application/json",
           body := newsPayload q num location gl hl tbs, timeout := 30 }])
    ∧ ((search_places (some k) u q location gl hl).requests
      = [{ url := "https://google.serper.dev/places", xApiKey := k,
           contentType := "application/json",
           body := placesPayload q location gl hl, timeout := 30 }])
    ∧ ((search_shopping (some k) u q num location gl hl).requests
      = [{ url := "https://google.serper.dev/shopping", xApiKey := k,
           contentType := "application/json",
           body := shoppingPayload q num location gl hl, timeout := 30 }])
    ∧ ((search_videos (some k) u q num location gl hl).requests
      = [{ url := "https://google.serper.dev/videos", xApiKey := k,
           contentType := "application/json",
           body := videosPayload q num location gl hl, timeout := 30 }]) :=
  ⟨search_google_requests_eq hk u q num location gl hl ac page,
   search_images_requests_eq hk u q num location gl hl,
   search_news_requests_eq hk u q num location gl hl tbs,
   search_places_requests_eq hk u q location gl hl,
   search_shopping_requests_eq hk u q num location gl hl,
   search_videos_requests_eq hk u q num location gl hl⟩

theorem single_post_with_credential_witness :
    (search_google (some "k") (fun _ => Outcome.ok Json.null)
        "x" 10 none none none true 1).requests
      = [{ url := "https://google.serper.dev/search", xApiKey := "k",
           contentType := "application/json",
           body := googlePayload "x" 10 true 1 none none none, timeout := 30 }] :=
  (single_post_with_credential "k" "x" (by decide)
    (fun _ => Outcome.ok Json.null) 10 none none none none true 1).1

theorem search_google_result_shape (key : Option String)
    (u : HttpRequest → Outcome) (q : String) (num : Int)
    (location gl hl : Option String) (ac : Bool) (page : Int) :
    (∃ m, (search_google key u q num location gl hl ac page).result
        = [("error", Json.str m), ("results", Json.arr [])])
    ∨ (∃ (data : JObj) (n : Int),
        (search_google key u q num location gl hl ac page).result
          = [("query", Json.str q),
             ("organic_results", jgetD data "organic" (Json.arr [])),
             ("knowledge_graph", jget data "knowledgeGraph"),
             ("people_also_ask", jgetD data "peopleAlsoAsk" (Json.arr [])),
             ("related_searches", jgetD data "relatedSearches" (Json.arr [])),
             ("total_results", Json.num n)]) := by
  by_cases hkt : keyTruthy key = true
  case neg =>
    have hk0 : keyTruthy key = false := by
      revert hkt; cases keyTruthy key <;> simp
    exact Or.inl ⟨missingKeyMsg, by simp [search_google, hk0]⟩
  case pos =>
    cases h : u (googleReq (key.getD "") q num ac page location gl hl) with
    | httpError m => exact Or.inl ⟨m, by simp [search_google, hkt, h]⟩
    | transportError m => exact Or.inl ⟨m, by simp [search_google, hkt, h]⟩
    | parseError m => exact Or.inl ⟨m, by simp [search_google, hkt, h]⟩
    | ok body =>
      cases hb : asObj body with
      | none => exact Or.inl ⟨attrErrorMsg, by simp [search_google, hkt, h, hb]⟩
      | some data =>
        cases hn : pyLen (jgetD data "organic" (Json.arr [])) with
        | none => exact Or.inl ⟨lenErrorMsg, by simp [search_google, hkt, h, hb, hn]⟩
        | some n => exact Or.inr ⟨data, n, by simp [search_google, hkt, h, hb, hn]⟩

/-- C9: every failure result of `search_google` — missing-credential branch
and exception branch alike — maps `"results"` to the empty list, a key the
success shape never carries; and no success key (organic_results,
knowledge_graph, people_also_ask, related_searches, total_results) appears
in a failure result. -/
theorem google_failure_results_key (key : Option String)
    (u : HttpRequest → Outcome) (q : String) (num : Int)
    (location gl hl : Option String) (ac : Bool) (page : Int) :
    (hasKey (search_google key u q num location gl hl ac page).result "error" = true →
      jget (search_google key u q num location gl hl ac page).result "results" = Json.arr []
      ∧ hasKey (search_google key u q num location gl hl ac page).result "organic_results" = false
      ∧ hasKey (search_google key u q num location gl hl ac page).result "knowledge_graph" = false
      ∧ hasKey (search_google key u q num location gl hl ac page).result "people_also_ask" = false
      ∧ hasKey (search_google key u q num location gl hl ac page).result "related_searches" = false
      ∧ hasKey (search_google key u q num location gl hl ac page).result "total_results" = false)
    ∧ (hasKey (search_google key u q num location gl hl ac page).result "error" = false →
      hasKey (search_google key u q num location gl hl ac page).result "results" = false) := by
  rcases search_google_result_shape key u q num location gl hl ac page with
    ⟨m, hm⟩ | ⟨data, n, hm⟩
  · rw [hm]
    refine ⟨fun _ => ⟨rfl, rfl, rfl, rfl, rfl, rfl⟩, fun hfalse => ?_⟩
    simp [hasKey] at hfalse
  · rw [hm]
    refine ⟨fun htrue => ?_, fun _ => rfl⟩
    simp [hasKey] at htrue

theorem google_failure_results_key_witness :
    jget (search_google none (fun _ => Outcome.ok Json.null)
        "x" 10 none none none true 1).result "results" = Json.arr [] :=
  ((google_failure_results_key none (fun _ => Outcome.ok Json.null)
      "x" 10 none none none true 1).1 rfl).1

/-- C10: no vertical validates the query term locally — any supplied `q`,
the empty string included, is placed verbatim under `"q"` in the outbound
payload and exactly one upstream request is still made. -/
theorem query_forwarded_unvalidated (k q : String) (hk : k ≠ "")
    (u : HttpRequest → Outcome) :
    ((search_google (some k) u q 10 none none none true 1).requests.map
        (fun r => jget r.body "q") = [Json.str q])
    ∧ ((search_images (some k) u q 10 none none none).requests.map
        (fun r => jget r.body "q") = [Json.str q])
    ∧ ((search_news (some k) u q 10 none none none none).requests.map
        (fun r => jget r.body "q") = [Json.str q])
    ∧ ((search_places (some k) u q none none none).requests.map
        (fun r => jget r.body "q") = [Json.str q])
    ∧ ((search_shopping (some k) u q 10 none none none).requests.map
        (fun r => jget r.body "q") = [Json.str q])
    ∧ ((search_videos (some k) u q 10 none none none).requests.map
        (fun r => jget r.body "q") = [Json.str q]) := by
  refine ⟨?_, ?_, ?_, ?_, ?_, ?_⟩
  · rw [search_google_requests_eq hk]; rfl
  · rw [search_images_requests_eq hk]; rfl
  · rw [search_news_requests_eq hk]; rfl
  · rw [search_places_requests_eq hk]; rfl
  · rw [search_shopping_requests_eq hk]; rfl
  · rw [search_videos_requests_eq hk]; rfl

theorem query_forwarded_unvalidated_witness :
    (search_google (some "k") (fun _ => Outcome.ok Json.null)
        "" 10 none none none true 1).requests.map
        (fun r => jget r.body "q") = [Json.str ""] :=
  (query_forwarded_unvalidated "k" "" (by decide)
    (fun _ => Outcome.ok Json.null)).1
